import Mathlib

/-!
Verification of the neko.ai backend core against its specification.

This file shallowly embeds the three core subsystems of the repository:

* the versioned slide store (src/backend/db/crud.py,
  src/backend/app/services/session_service.py,
  src/backend/app/services/slide_service.py);
* the provider-failover router (src/backend/app/ai/router.py,
  src/backend/app/ai/providers/base_provider.py,
  src/backend/app/ai/providers/groq_provider.py,
  src/backend/app/ai/providers/gemini_provider.py);
* the asynchronous job engine (src/backend/app/services/job_service.py).

Database rows become Lean structures, SQLAlchemy mutations become pure
state-passing functions, Python exceptions and absent rows become Option,
and wall-clock time becomes an explicit natural-number parameter.
-/

namespace NekoAI

/-! ## Versioned slide store

Embeds the slide/version data model of src/backend/db/models.py and the
operations of src/backend/db/crud.py.  A SlideVersionModel row is an
immutable snapshot; a SlideModel row caches the content of the version the
current_version pointer selects, and owns its version rows, which the ORM
relationship delivers ordered by version_number. -/

/-- Embeds SlideVersionModel (src/backend/db/models.py).  The created_at
timestamp is omitted: no claim depends on it. -/
structure SlideVersionModel where
  version_number : Nat
  title : String
  content_json : List String
  speaker_notes : Option String
  instruction : Option String
deriving DecidableEq, Repr

/-- Embeds SlideModel (src/backend/db/models.py).  The versions field is the
ordered (by version_number) list the ORM relationship loads; current_version
is the pointer column.  Every write of current_version in crud.py stores a
checked non-negative value, so it is a Nat here. -/
structure SlideModel where
  slide_number : Int
  title : String
  content_json : List String
  speaker_notes : Option String
  current_version : Nat
  versions : List SlideVersionModel
deriving DecidableEq, Repr

/-- Embeds crud.create_slide (src/backend/db/crud.py lines 124-162): a new
slide row with current_version 0 and exactly one version row numbered 0
carrying the given instruction. -/
def create_slide (slide_number : Int) (title : String) (content : List String)
    (speaker_notes : Option String) (instruction : String) : SlideModel :=
  { slide_number := slide_number
    title := title
    content_json := content
    speaker_notes := speaker_notes
    current_version := 0
    versions := [{ version_number := 0
                   title := title
                   content_json := content
                   speaker_notes := speaker_notes
                   instruction := some instruction }] }

/-- Embeds crud.update_slide_content (src/backend/db/crud.py lines 180-217):
the new version is numbered len(slide.versions), the slide row caches the
new content, and the pointer advances to the new version number.  Appending
the row at the end of the list matches the ORM ordering by version_number
whenever the existing rows are numbered 0..len-1. -/
def update_slide_content (slide : SlideModel) (title : String) (content : List String)
    (speaker_notes : Option String) (instruction : Option String) : SlideModel :=
  let new_version_num := slide.versions.length
  { slide with
    title := title
    content_json := content
    speaker_notes := speaker_notes
    current_version := new_version_num
    versions := slide.versions ++
      [{ version_number := new_version_num
         title := title
         content_json := content
         speaker_notes := speaker_notes
         instruction := instruction }] }

/-- Embeds crud.rollback_slide_version (src/backend/db/crud.py lines
220-240): None when version_index is outside [0, len(slide.versions));
otherwise copy the selected version's content into the slide row and move
the pointer, touching no version row. -/
def rollback_slide_version (slide : SlideModel) (version_index : Int) : Option SlideModel :=
  if version_index < 0 ∨ (slide.versions.length : Int) ≤ version_index then none
  else
    match slide.versions[version_index.toNat]? with
    | none => none
    | some v =>
      some { slide with
             title := v.title
             content_json := v.content_json
             speaker_notes := v.speaker_notes
             current_version := version_index.toNat }

/-- Embeds the SlideVersion Pydantic schema
(src/backend/app/models/schemas.py). -/
structure SlideVersion where
  version : Nat
  title : String
  content : List String
  speaker_notes : Option String
  instruction : Option String
deriving DecidableEq, Repr

/-- Embeds the SlideWithHistory Pydantic schema
(src/backend/app/models/schemas.py). -/
structure SlideWithHistory where
  slide_number : Int
  current_version : Nat
  versions : List SlideVersion
deriving DecidableEq, Repr

/-- Embeds the version part of SessionManager._db_session_to_schema
(src/backend/app/services/session_service.py lines 46-56): the schema
version index is the enumeration position, not the stored version_number. -/
def db_versions_to_schema (versions : List SlideVersionModel) : List SlideVersion :=
  versions.enum.map (fun p =>
    { version := p.1
      title := p.2.title
      content := p.2.content_json
      speaker_notes := p.2.speaker_notes
      instruction := p.2.instruction })

/-- Embeds the slide part of SessionManager._db_session_to_schema
(src/backend/app/services/session_service.py lines 58-62). -/
def db_slide_to_schema (s : SlideModel) : SlideWithHistory :=
  { slide_number := s.slide_number
    current_version := s.current_version
    versions := db_versions_to_schema s.versions }

/-- Embeds the SlideWithHistory.current property
(src/backend/app/models/schemas.py): versions[current_version], an
out-of-range pointer raising in Python modeled as none. -/
def SlideWithHistory.current (s : SlideWithHistory) : Option SlideVersion :=
  s.versions[s.current_version]?

/-- Embeds a session's owned slide sequence (SessionModel.slides in
src/backend/db/models.py); the other session columns play no role in the
claims about the store. -/
structure SessionModel where
  slides : List SlideModel
deriving DecidableEq, Repr

/-- Embeds crud.get_slide (src/backend/db/crud.py lines 165-177): select the
slide row of the session whose slide_number column matches. -/
def get_slide (session : SessionModel) (slide_number : Int) : Option SlideModel :=
  session.slides.find? (fun s => s.slide_number == slide_number)

/-- Applies a fallible in-place update to the first slide row whose
slide_number matches, as the SQLAlchemy session does for the row
crud.get_slide returned; none when the slide is absent or the update
itself fails, in which case no row is touched. -/
def replaceSlide (slides : List SlideModel) (slide_number : Int)
    (f : SlideModel → Option SlideModel) : Option (List SlideModel) :=
  match slides with
  | [] => none
  | s :: rest =>
    if s.slide_number == slide_number then
      (f s).map (fun s2 => s2 :: rest)
    else
      (replaceSlide rest slide_number f).map (fun r => s :: r)

/-- Embeds SessionManager.update_slide
(src/backend/app/services/session_service.py lines 226-262): look the slide
up by number, then crud.update_slide_content on it; None when the slide is
absent, leaving the session untouched. -/
def manager_update_slide (session : SessionModel) (slide_number : Int)
    (title : String) (content : List String) (speaker_notes : Option String)
    (instruction : Option String) : Option SessionModel :=
  (replaceSlide session.slides slide_number
    (fun s => some (update_slide_content s title content speaker_notes instruction))).map
    SessionModel.mk

/-- Embeds SessionManager.rollback_slide
(src/backend/app/services/session_service.py lines 264-295): look the slide
up by number, then crud.rollback_slide_version; None when the slide is
absent or the version index is out of range, leaving the session
untouched. -/
def manager_rollback_slide (session : SessionModel) (slide_number : Int)
    (version_index : Int) : Option SessionModel :=
  (replaceSlide session.slides slide_number
    (fun s => rollback_slide_version s version_index)).map SessionModel.mk

/-- Embeds the slide-range guard plus update of SlideService.update_slide
(src/backend/app/services/slide_service.py lines 24-93): slide_idx =
slide_number - 1 must lie in [0, len(session.slides)), else the service
raises slide-not-found (modeled as none) before any mutation; the generated
version content is a parameter here, since the AI call between the guard
and the write does not touch the store. -/
def service_update_slide (session : SessionModel) (slide_number : Int)
    (title : String) (content : List String) (speaker_notes : Option String)
    (instruction : Option String) : Option SessionModel :=
  let slide_idx := slide_number - 1
  if slide_idx < 0 ∨ (session.slides.length : Int) ≤ slide_idx then none
  else manager_update_slide session slide_number title content speaker_notes instruction

/-- Embeds the slides branch of SessionManager.update_session
(src/backend/app/services/session_service.py lines 163-178): delete every
existing slide, then for each supplied SlideWithHistory create a fresh slide
from only the version its current pointer selects, with the literal
instruction "Initial generation".  A pointer outside the supplied version
list raises in Python; modeled as none. -/
def session_update_slides : List SlideWithHistory → Option (List SlideModel)
  | [] => some []
  | sw :: rest =>
    match sw.versions[sw.current_version]? with
    | none => none
    | some cv =>
      (session_update_slides rest).map
        (fun r => create_slide sw.slide_number cv.title cv.content cv.speaker_notes
          "Initial generation" :: r)

/-- Well-formedness of a slide row set: the ORM-ordered version list is
numbered densely 0,1,2,... by its version_number column, as crud.create_slide
establishes and crud.update_slide_content preserves. -/
def SlideModel.wellFormed (s : SlideModel) : Prop :=
  ∀ i : Nat, ∀ v : SlideVersionModel, s.versions[i]? = some v → v.version_number = i

/-- Direct slide edits as the web layer drives them: appendVersion through
crud.update_slide_content, or rollback through crud.rollback_slide_version
(a failed rollback returns before mutating, so the slide stays as it was). -/
inductive SlideOp where
  | append (title : String) (content : List String) (speaker_notes : Option String)
      (instruction : Option String)
  | rollback (version_index : Int)
deriving DecidableEq, Repr

/-- Runs one SlideOp against a slide row. -/
def applySlideOp (s : SlideModel) (op : SlideOp) : SlideModel :=
  match op with
  | .append t c n i => update_slide_content s t c n i
  | .rollback idx => (rollback_slide_version s idx).getD s

/-- Runs a sequence of SlideOps against a slide row. -/
def applySlideOps (s : SlideModel) (ops : List SlideOp) : SlideModel :=
  ops.foldl applySlideOp s

/-! ## Provider clients and the failover router

Embeds src/backend/app/ai/providers/base_provider.py and the AIRouter of
src/backend/app/ai/router.py.  Wall-clock time is an explicit Nat measured
in minutes (COOLDOWN_MINUTES is the only duration the router uses); the
cooldown dict is a key-unique association list. -/

/-- Embeds ProviderStatus (src/backend/app/ai/providers/base_provider.py). -/
inductive ProviderStatus where
  | available
  | rate_limited
  | error
  | unavailable
deriving DecidableEq, Repr

/-- Embeds ProviderResponse (src/backend/app/ai/providers/base_provider.py). -/
structure ProviderResponse where
  success : Bool
  content : String
  provider_name : String
  model : String
  tokens_used : Option Nat
  error : Option String
deriving DecidableEq, Repr

/-- Observable behavior of one awaited provider call from the router's side:
either the call returns a ProviderResponse, with the provider's self-reported
status as it stands after the call's own mark_rate_limited / mark_error /
mark_available mutations, or the call raises, carrying str(e). -/
inductive CallOutcome where
  | ok (resp : ProviderResponse) (status_after : ProviderStatus)
  | exn (message : String)
deriving DecidableEq, Repr

/-- A provider client as the router sees it for one dispatch round: its name,
its current self-reported status (read by get_available_providers before the
call), and the outcome invoking it would produce. -/
structure ProviderClient where
  name : String
  status : ProviderStatus
  outcome : CallOutcome
deriving DecidableEq, Repr

/-- Embeds AIRouter.COOLDOWN_MINUTES (src/backend/app/ai/router.py line 30). -/
def COOLDOWN_MINUTES : Nat := 1

/-- Dict lookup in the router's _cooldowns mapping. -/
def lookupCooldown (cooldowns : List (String × Nat)) (name : String) : Option Nat :=
  (cooldowns.find? (fun p => p.1 == name)).map Prod.snd

/-- Dict key deletion in the router's _cooldowns mapping. -/
def eraseCooldown (cooldowns : List (String × Nat)) (name : String) : List (String × Nat) :=
  cooldowns.filter (fun p => p.1 != name)

/-- Embeds AIRouter._is_in_cooldown (src/backend/app/ai/router.py lines
59-69): false when no entry; when the entry has expired (now past the
stored end) the entry is lazily deleted and the answer is false; otherwise
true. -/
def is_in_cooldown (cooldowns : List (String × Nat)) (now : Nat) (name : String) :
    Bool × List (String × Nat) :=
  match lookupCooldown cooldowns name with
  | none => (false, cooldowns)
  | some cooldown_end =>
    if cooldown_end < now then (false, eraseCooldown cooldowns name)
    else (true, cooldowns)

/-- Embeds AIRouter._set_cooldown (src/backend/app/ai/router.py lines 71-74):
store now + COOLDOWN_MINUTES under the provider's name. -/
def set_cooldown (cooldowns : List (String × Nat)) (now : Nat) (name : String) :
    List (String × Nat) :=
  eraseCooldown cooldowns name ++ [(name, now + COOLDOWN_MINUTES)]

/-- Embeds AIRouter.get_available_providers (src/backend/app/ai/router.py
lines 76-83): walk the priority-ordered provider list, keep a provider when
it is not in cooldown and its status is AVAILABLE or ERROR, threading the
lazy deletions _is_in_cooldown performs on the cooldown dict. -/
def get_available_providers (providers : List ProviderClient)
    (cooldowns : List (String × Nat)) (now : Nat) :
    List ProviderClient × List (String × Nat) :=
  match providers with
  | [] => ([], cooldowns)
  | p :: rest =>
    let r1 := is_in_cooldown cooldowns now p.name
    let r2 := get_available_providers rest r1.2 now
    if r1.1 then r2
    else if p.status = ProviderStatus.available ∨ p.status = ProviderStatus.error then
      (p :: r2.1, r2.2)
    else r2

/-- Modelled from the spec and claim C3's words, for comparison with the
code's get_available_providers: the configured providers minus those
currently under cooldown minus those in the Unconfigured (UNAVAILABLE)
state, in priority order. -/
def spec_candidate_providers (providers : List ProviderClient)
    (cooldowns : List (String × Nat)) (now : Nat) : List ProviderClient :=
  providers.filter (fun p =>
    (match lookupCooldown cooldowns p.name with
     | none => true
     | some cooldown_end => cooldown_end < now) &&
    !(p.status == ProviderStatus.unavailable))

/-- Pure reading of the cooldown predicate (an entry exists and has not
expired), untangled from the lazy deletion. -/
def pure_in_cooldown (cooldowns : List (String × Nat)) (now : Nat) (name : String) : Bool :=
  match lookupCooldown cooldowns name with
  | none => false
  | some cooldown_end => !(cooldown_end < now)

/-- Python str formatting of an optional string, as an f-string renders
last_error: None prints as "None". -/
def pyOptStr : Option String → String
  | none => "None"
  | some s => s

/-- The synthetic response AIRouter.generate_text and generate_json return
when get_available_providers is empty (src/backend/app/ai/router.py lines
99-106 and 156-163). -/
def no_providers_response : ProviderResponse :=
  { success := false
    content := ""
    provider_name := "none"
    model := "none"
    tokens_used := none
    error := some "All AI providers are currently unavailable. Please try again later." }

/-- The synthetic all-failed response of AIRouter.generate_text
(src/backend/app/ai/router.py lines 137-143). -/
def all_failed_text_response (last_error : Option String) : ProviderResponse :=
  { success := false
    content := ""
    provider_name := "none"
    model := "none"
    tokens_used := none
    error := some ("All providers failed. Last error: " ++ pyOptStr last_error) }

/-- The synthetic all-failed response of AIRouter.generate_json
(src/backend/app/ai/router.py lines 192-198). -/
def all_failed_json_response (last_error : Option String) : ProviderResponse :=
  { success := false
    content := ""
    provider_name := "none"
    model := "none"
    tokens_used := none
    error := some ("All providers failed for JSON generation. Last error: " ++ pyOptStr last_error) }

/-- Embeds the candidate loop shared textually by AIRouter.generate_text
(src/backend/app/ai/router.py lines 108-143) and AIRouter.generate_json
(lines 165-198), which differ only in the underlying provider method and
the final synthetic message (the failMsg parameter): on a successful
response return it at once; on a failed response set a cooldown when the
provider now reports RATE_LIMITED, remember its error, and continue; on a
raised exception remember str(e) and continue; when the list is exhausted
return the synthetic failure built from the last remembered error. -/
def try_providers (failMsg : Option String → ProviderResponse) :
    List ProviderClient → Option String → List (String × Nat) → Nat →
    ProviderResponse × List (String × Nat)
  | [], last_error, cooldowns, _ => (failMsg last_error, cooldowns)
  | c :: rest, _, cooldowns, now =>
    match c.outcome with
    | .ok resp status_after =>
      if resp.success then (resp, cooldowns)
      else
        let cooldowns2 :=
          if status_after = ProviderStatus.rate_limited then set_cooldown cooldowns now c.name
          else cooldowns
        try_providers failMsg rest resp.error cooldowns2 now
    | .exn m => try_providers failMsg rest (some m) cooldowns now

/-- Embeds AIRouter.generate_text (src/backend/app/ai/router.py lines
85-143). -/
def generate_text (providers : List ProviderClient) (cooldowns : List (String × Nat))
    (now : Nat) : ProviderResponse × List (String × Nat) :=
  let avail := get_available_providers providers cooldowns now
  if avail.1.isEmpty then (no_providers_response, avail.2)
  else try_providers all_failed_text_response avail.1 none avail.2 now

/-- Embeds AIRouter.generate_json (src/backend/app/ai/router.py lines
145-198). -/
def generate_json (providers : List ProviderClient) (cooldowns : List (String × Nat))
    (now : Nat) : ProviderResponse × List (String × Nat) :=
  let avail := get_available_providers providers cooldowns now
  if avail.1.isEmpty then (no_providers_response, avail.2)
  else try_providers all_failed_json_response avail.1 none avail.2 now

/-- True when invoking the client fails: a response with success False, or a
raised exception. -/
def clientCallFails (c : ProviderClient) : Bool :=
  match c.outcome with
  | .ok resp _ => !resp.success
  | .exn _ => true

/-- The error the router's loop remembers after this client fails: the failed
response's error field, or str(e) for a raised exception. -/
def lastErrorOf (c : ProviderClient) : Option String :=
  match c.outcome with
  | .ok resp _ => resp.error
  | .exn m => some m

/-! ## Provider JSON mode

Embeds the post-processing of GroqProvider.generate_json
(src/backend/app/ai/providers/groq_provider.py lines 143-181) and
GeminiProvider.generate_json
(src/backend/app/ai/providers/gemini_provider.py lines 169-207), whose
bodies are identical: both delegate to the provider's own generate_text and
then strip fenced-code markers and validate JSON.  Python's json.loads is
standard-library code, abstracted here as a parse parameter returning the
decoded witness or the JSONDecodeError message. -/

/-- Python str.strip, over the string's character sequence: remove leading
and trailing whitespace. -/
def pyStrip (s : String) : String :=
  ⟨((s.data.dropWhile Char.isWhitespace).reverse.dropWhile Char.isWhitespace).reverse⟩

/-- Python str.startswith, over the string's character sequence. -/
def pyStartsWith (s pre : String) : Bool :=
  pre.data.isPrefixOf s.data

/-- Python str.endswith, over the string's character sequence. -/
def pyEndsWith (s suf : String) : Bool :=
  suf.data.isSuffixOf s.data

/-- Python character slicing s[n:], over the string's character sequence. -/
def pyDrop (s : String) (n : Nat) : String :=
  ⟨s.data.drop n⟩

/-- Python character slicing s[:-n], over the string's character sequence. -/
def pyDropRight (s : String) (n : Nat) : String :=
  ⟨s.data.take (s.data.length - n)⟩

/-- The marker stripping of generate_json: strip whitespace, drop a leading
fenced marker with or without the json tag, drop a trailing fence, strip
again (groq_provider.py lines 163-171, gemini_provider.py lines 189-197). -/
def strip_json_markers (s : String) : String :=
  let c := pyStrip s
  let c := if pyStartsWith c "```json" then pyDrop c 7 else c
  let c := if pyStartsWith c "```" then pyDrop c 3 else c
  let c := if pyEndsWith c "```" then pyDropRight c 3 else c
  pyStrip c

/-- Embeds the generate_json post-processing applied to the response the
provider's generate_text call produced (groq_provider.py lines 162-181,
gemini_provider.py lines 188-207): on a successful response, strip markers
and parse; a parse success replaces the content with the stripped text, a
parse failure downgrades the response to failure with the decode error; a
failed response passes through untouched. -/
def provider_generate_json (parse : String → Except String Unit)
    (response : ProviderResponse) : ProviderResponse :=
  if response.success then
    let content := strip_json_markers response.content
    match parse content with
    | .ok _ => { response with content := content }
    | .error e => { response with success := false, error := some ("Invalid JSON response: " ++ e) }
  else response

/-! ## Job engine

Embeds the Job dataclass and JobManager of
src/backend/app/services/job_service.py.  A task closure's behavior when
awaited is its outcome: a normal return or a raised exception carrying
str(e).  The jobs dict is a key-unique association list (job ids are fresh
UUIDs); timestamps are omitted, no claim depends on them. -/

/-- Embeds JobStatus (src/backend/app/models/schemas.py lines 26-30). -/
inductive JobStatus where
  | pending
  | processing
  | completed
  | failed
deriving DecidableEq, Repr

/-- Behavior of a job's task function when executed. -/
inductive TaskOutcome where
  | success
  | raises (message : String)
deriving DecidableEq, Repr

/-- Embeds the Job dataclass (src/backend/app/services/job_service.py lines
16-34).  Progress is an Int: the progress column is a Python int and
update_job_progress stores its argument unvalidated. -/
structure Job where
  job_id : String
  session_id : String
  job_type : String
  status : JobStatus
  progress : Int
  message : String
  error : Option String
  task_outcome : TaskOutcome
deriving DecidableEq, Repr

/-- Embeds the JobManager state (src/backend/app/services/job_service.py
lines 50-53): the jobs dict and the FIFO queue of job ids. -/
structure JobManager where
  jobs : List (String × Job)
  queue : List String
deriving DecidableEq, Repr

/-- Embeds JobManager.create_job (src/backend/app/services/job_service.py
lines 55-94): a fresh Job in PENDING state (dataclass default progress 0)
stored under its id and enqueued. -/
def create_job (m : JobManager) (job_id session_id job_type : String)
    (outcome : TaskOutcome) : JobManager :=
  let job : Job :=
    { job_id := job_id
      session_id := session_id
      job_type := job_type
      status := JobStatus.pending
      progress := 0
      message := "Job queued"
      error := none
      task_outcome := outcome }
  { jobs := m.jobs ++ [(job_id, job)], queue := m.queue ++ [job_id] }

/-- Embeds JobManager.get_job (src/backend/app/services/job_service.py lines
96-98). -/
def get_job (m : JobManager) (job_id : String) : Option Job :=
  (m.jobs.find? (fun p => p.1 == job_id)).map Prod.snd

/-- In-place mutation of the job stored under a given id, a no-op when the
id is absent. -/
def setJob (jobs : List (String × Job)) (job_id : String) (f : Job → Job) :
    List (String × Job) :=
  jobs.map (fun p => if p.1 == job_id then (p.1, f p.2) else p)

/-- Embeds JobManager.update_job_progress (src/backend/app/services/job_service.py
lines 100-105): store the given progress and message unvalidated; no-op when
the job no longer exists. -/
def update_job_progress (m : JobManager) (job_id : String) (progress : Int)
    (message : String) : JobManager :=
  { m with jobs := setJob m.jobs job_id (fun j => { j with progress := progress, message := message }) }

/-- Embeds JobManager._execute_job (src/backend/app/services/job_service.py
lines 139-163): mark PROCESSING with progress 0, run the task; a normal
return marks COMPLETED with progress forced to 100, a raised exception is
caught and marks FAILED recording str(e). -/
def execute_job (j : Job) : Job :=
  let j1 := { j with status := JobStatus.processing, progress := 0, message := "Processing..." }
  match j.task_outcome with
  | .success =>
    { j1 with status := JobStatus.completed, progress := 100, message := "Completed successfully" }
  | .raises e =>
    { j1 with status := JobStatus.failed, error := some e, message := "Failed: " ++ e }

/-- Embeds one iteration of JobManager.process_jobs
(src/backend/app/services/job_service.py lines 115-137): dequeue an id, skip
it when the job is gone, otherwise execute it; _execute_job catches the
task's exception, so a raised failure never escapes into the loop. -/
def process_one (jobs : List (String × Job)) (job_id : String) : List (String × Job) :=
  setJob jobs job_id execute_job

/-- Runs JobManager.process_jobs over the currently queued ids
(src/backend/app/services/job_service.py lines 107-137): each queued id is
processed in order, and a failing task leaves the loop running for the
remaining ids. -/
def process_jobs (m : JobManager) : JobManager :=
  { jobs := m.queue.foldl process_one m.jobs, queue := [] }

/-- The JobManager operations on one job that touch its progress field, as
claim C6 ranges over them: a progress update with an arbitrary integer, the
start of execution, and the end of execution.  execute_job is exactly
exec_start followed by exec_finish. -/
inductive JobOp where
  | update_progress (progress : Int) (message : String)
  | exec_start
  | exec_finish
deriving DecidableEq, Repr

/-- Runs one JobOp against a job. -/
def applyJobOp (j : Job) (op : JobOp) : Job :=
  match op with
  | .update_progress p msg => { j with progress := p, message := msg }
  | .exec_start => { j with status := JobStatus.processing, progress := 0, message := "Processing..." }
  | .exec_finish =>
    match j.task_outcome with
    | .success =>
      { j with status := JobStatus.completed, progress := 100, message := "Completed successfully" }
    | .raises e =>
      { j with status := JobStatus.failed, error := some e, message := "Failed: " ++ e }

/-! ## Helper lemmas about the versioned slide store -/

/-- A rollback to an in-range index succeeds and only moves the pointer and
the cached content; the version rows are untouched. -/
lemma rollback_of_getElem? (s : SlideModel) (i : Nat) (v : SlideVersionModel)
    (hv : s.versions[i]? = some v) :
    rollback_slide_version s (i : Int) =
      some { s with title := v.title
                    content_json := v.content_json
                    speaker_notes := v.speaker_notes
                    current_version := i } := by
  have hi : i < s.versions.length := by
    rcases List.getElem?_eq_some.mp hv with ⟨h, _⟩
    exact h
  have hcond : ¬((i : Int) < 0 ∨ (s.versions.length : Int) ≤ (i : Int)) := by
    push_neg
    exact ⟨Int.ofNat_nonneg i, by exact_mod_cast hi⟩
  simp only [rollback_slide_version, if_neg hcond, Int.toNat_natCast, hv]

/-- A rollback result carries the same version rows as its input. -/
lemma rollback_versions_eq (s s1 : SlideModel) (idx : Int)
    (h : rollback_slide_version s idx = some s1) : s1.versions = s.versions := by
  unfold rollback_slide_version at h
  split at h
  · exact absurd h (by simp)
  · rcases hm : s.versions[idx.toNat]? with _ | v <;> rw [hm] at h
    · exact absurd h (by simp)
    · cases h
      rfl

/-- Rollback fails exactly on an index outside [0, number of versions). -/
lemma rollback_eq_none_iff (s : SlideModel) (idx : Int) :
    rollback_slide_version s idx = none ↔
      idx < 0 ∨ (s.versions.length : Int) ≤ idx := by
  constructor
  · intro h
    by_contra hc
    push_neg at hc
    have hi : idx.toNat < s.versions.length := by omega
    rcases List.getElem?_eq_some.mp (List.getElem?_eq_getElem hi) with ⟨_, _⟩
    unfold rollback_slide_version at h
    rw [if_neg (by push_neg; exact hc)] at h
    rw [List.getElem?_eq_getElem hi] at h
    exact absurd h (by simp)
  · intro h
    unfold rollback_slide_version
    rw [if_pos h]

/-- One direct slide edit never disturbs an existing version row and never
shrinks the version list. -/
lemma applySlideOp_stable (s : SlideModel) (op : SlideOp) (j : Nat)
    (h : j < s.versions.length) :
    (applySlideOp s op).versions[j]? = s.versions[j]? ∧
      s.versions.length ≤ (applySlideOp s op).versions.length := by
  cases op with
  | append t c n i =>
    constructor
    · exact List.getElem?_append_left h
    · simp [applySlideOp, update_slide_content]
  | rollback idx =>
    rcases hr : rollback_slide_version s idx with _ | s1
    · simp [applySlideOp, hr]
    · have := rollback_versions_eq s s1 idx hr
      simp [applySlideOp, hr, this]

/-- A sequence of direct slide edits never disturbs an existing version row
and never shrinks the version list. -/
lemma applySlideOps_stable (ops : List SlideOp) (s : SlideModel) (j : Nat)
    (h : j < s.versions.length) :
    (applySlideOps s ops).versions[j]? = s.versions[j]? ∧
      s.versions.length ≤ (applySlideOps s ops).versions.length := by
  induction ops generalizing s with
  | nil => exact ⟨rfl, Nat.le_refl _⟩
  | cons op rest ih =>
    have h1 := applySlideOp_stable s op j h
    have h2 := ih (applySlideOp s op) (Nat.lt_of_lt_of_le h h1.2)
    exact ⟨h2.1.trans h1.1, Nat.le_trans h1.2 h2.2⟩

/-! ## Claim C1 -/

/-- Claim C1: for a slide whose version sequence has length L, after a
rollback to any earlier index i < L-1, one subsequent appendVersion
(crud.update_slide_content) creates a version numbered L at position L,
advances the current pointer to L, and leaves every previously recorded
version present unchanged at its original index. -/
theorem C1_append_after_rollback (slide : SlideModel) (i : Nat)
    (t : String) (c : List String) (n : Option String) (instr : Option String)
    (h : i + 1 < slide.versions.length) :
    ∃ s1, rollback_slide_version slide (i : Int) = some s1 ∧
      (update_slide_content s1 t c n instr).versions.length = slide.versions.length + 1 ∧
      (update_slide_content s1 t c n instr).versions[slide.versions.length]? =
        some { version_number := slide.versions.length
               title := t
               content_json := c
               speaker_notes := n
               instruction := instr } ∧
      (update_slide_content s1 t c n instr).current_version = slide.versions.length ∧
      ∀ j, j < slide.versions.length →
        (update_slide_content s1 t c n instr).versions[j]? = slide.versions[j]? := by
  have hi : i < slide.versions.length := Nat.lt_of_succ_lt h
  have hv : slide.versions[i]? = some (slide.versions[i]) := List.getElem?_eq_getElem hi
  refine ⟨_, rollback_of_getElem? slide i _ hv, ?_, ?_, ?_, ?_⟩
  · simp [update_slide_content]
  · simp [update_slide_content]
  · simp [update_slide_content]
  · intro j hj
    simpa [update_slide_content] using List.getElem?_append_left hj

/-- Witness for C1 on a three-version slide rolled back to index 0. -/
theorem C1_append_after_rollback_witness :
    ∃ s1, rollback_slide_version
        (update_slide_content
          (update_slide_content (create_slide 1 "T0" ["b0"] none "Initial generation")
            "T1" ["b1"] none (some "edit 1"))
          "T2" ["b2"] none (some "edit 2")) (0 : Nat) = some s1 ∧
      (update_slide_content s1 "T3" ["b3"] none (some "edit 3")).versions.length = 3 + 1 ∧
      (update_slide_content s1 "T3" ["b3"] none (some "edit 3")).versions[3]? =
        some { version_number := 3
               title := "T3"
               content_json := ["b3"]
               speaker_notes := none
               instruction := some "edit 3" } ∧
      (update_slide_content s1 "T3" ["b3"] none (some "edit 3")).current_version = 3 ∧
      ∀ j, j < 3 →
        (update_slide_content s1 "T3" ["b3"] none (some "edit 3")).versions[j]? =
          (update_slide_content
            (update_slide_content (create_slide 1 "T0" ["b0"] none "Initial generation")
              "T1" ["b1"] none (some "edit 1"))
            "T2" ["b2"] none (some "edit 2")).versions[j]? := by
  have := C1_append_after_rollback
    (update_slide_content
      (update_slide_content (create_slide 1 "T0" ["b0"] none "Initial generation")
        "T1" ["b1"] none (some "edit 1"))
      "T2" ["b2"] none (some "edit 2"))
    0 "T3" ["b3"] none (some "edit 3") (by decide)
  simpa using this

/-! ## Claim C7 -/

/-- Reading the schema conversion at an index: the enumerate in
_db_session_to_schema makes the schema version number the list position. -/
lemma db_versions_to_schema_getElem? (versions : List SlideVersionModel) (k : Nat) :
    (db_versions_to_schema versions)[k]? =
      versions[k]?.map (fun v =>
        { version := k
          title := v.title
          content := v.content_json
          speaker_notes := v.speaker_notes
          instruction := v.instruction }) := by
  rcases h : versions[k]? with _ | v <;>
    simp [db_versions_to_schema, List.getElem?_enum, h]

/-- Claim C7: rollback to a valid version index i followed immediately by
reading the current view returns exactly the title, bullets and notes stored
for version i, and that stored version survives any later sequence of
rollbacks and appends unchanged, so rolling back to i again later still
shows the same content (stored versions are immutable). -/
theorem C7_rollback_view_immutable (slide : SlideModel) (i : Nat) (v : SlideVersionModel)
    (hv : slide.versions[i]? = some v) (ops : List SlideOp) :
    ∃ s1, rollback_slide_version slide (i : Int) = some s1 ∧
      (db_slide_to_schema s1).current =
        some { version := i
               title := v.title
               content := v.content_json
               speaker_notes := v.speaker_notes
               instruction := v.instruction } ∧
      (applySlideOps s1 ops).versions[i]? = some v ∧
      ∃ s2, rollback_slide_version (applySlideOps s1 ops) (i : Int) = some s2 ∧
        (db_slide_to_schema s2).current =
          some { version := i
                 title := v.title
                 content := v.content_json
                 speaker_notes := v.speaker_notes
                 instruction := v.instruction } := by
  have hi : i < slide.versions.length := by
    rcases List.getElem?_eq_some.mp hv with ⟨h, _⟩
    exact h
  refine ⟨{ slide with title := v.title
                       content_json := v.content_json
                       speaker_notes := v.speaker_notes
                       current_version := i },
    rollback_of_getElem? slide i v hv, ?_, ?_, ?_⟩
  · simp [db_slide_to_schema, SlideWithHistory.current, db_versions_to_schema_getElem?, hv]
  · exact ((applySlideOps_stable ops
      { slide with title := v.title
                   content_json := v.content_json
                   speaker_notes := v.speaker_notes
                   current_version := i } i hi).1).trans hv
  · have hv2 : (applySlideOps
        { slide with title := v.title
                     content_json := v.content_json
                     speaker_notes := v.speaker_notes
                     current_version := i } ops).versions[i]? = some v :=
      ((applySlideOps_stable ops
        { slide with title := v.title
                     content_json := v.content_json
                     speaker_notes := v.speaker_notes
                     current_version := i } i hi).1).trans hv
    refine ⟨_, rollback_of_getElem? _ i v hv2, ?_⟩
    simp [db_slide_to_schema, SlideWithHistory.current, db_versions_to_schema_getElem?, hv2]

/-- Witness for C7: a three-version slide, rollback to index 1, followed by
an append and a further rollback. -/
theorem C7_rollback_view_immutable_witness :
    ∃ s1, rollback_slide_version
        (update_slide_content
          (update_slide_content (create_slide 1 "T0" ["b0"] none "Initial generation")
            "T1" ["b1"] (some "n1") (some "edit 1"))
          "T2" ["b2"] none (some "edit 2")) (1 : Nat) = some s1 ∧
      (db_slide_to_schema s1).current =
        some { version := 1
               title := "T1"
               content := ["b1"]
               speaker_notes := some "n1"
               instruction := some "edit 1" } ∧
      (applySlideOps s1 [.append "T3" ["b3"] none (some "edit 3"), .rollback 0]).versions[1]? =
        some { version_number := 1
               title := "T1"
               content_json := ["b1"]
               speaker_notes := some "n1"
               instruction := some "edit 1" } ∧
      ∃ s2, rollback_slide_version
          (applySlideOps s1 [.append "T3" ["b3"] none (some "edit 3"), .rollback 0])
          (1 : Nat) = some s2 ∧
        (db_slide_to_schema s2).current =
          some { version := 1
                 title := "T1"
                 content := ["b1"]
                 speaker_notes := some "n1"
                 instruction := some "edit 1" } := by
  exact C7_rollback_view_immutable
    (update_slide_content
      (update_slide_content (create_slide 1 "T0" ["b0"] none "Initial generation")
        "T1" ["b1"] (some "n1") (some "edit 1"))
      "T2" ["b2"] none (some "edit 2"))
    1
    { version_number := 1
      title := "T1"
      content_json := ["b1"]
      speaker_notes := some "n1"
      instruction := some "edit 1" }
    (by decide)
    [.append "T3" ["b3"] none (some "edit 3"), .rollback 0]

/-! ## Claim C8 -/

/-- The in-place update of the slide row crud.get_slide selected fails (and
touches nothing) exactly when no row matches or the update itself fails. -/
lemma replaceSlide_eq_none (slides : List SlideModel) (n : Int)
    (f : SlideModel → Option SlideModel) :
    replaceSlide slides n f = none ↔
      ∀ s, slides.find? (fun x => x.slide_number == n) = some s → f s = none := by
  induction slides with
  | nil => simp [replaceSlide]
  | cons s rest ih =>
    cases hb : (s.slide_number == n) with
    | true =>
      simp [replaceSlide, hb, List.find?_cons_of_pos _ hb, Option.map_eq_none']
    | false =>
      have hf : List.find? (fun x : SlideModel => x.slide_number == n) (s :: rest) =
          List.find? (fun x : SlideModel => x.slide_number == n) rest := by
        simp [List.find?_cons, hb]
      simp only [replaceSlide, hb, Bool.false_eq_true, if_false, Option.map_eq_none', hf]
      exact ih

/-- Claim C8: appendVersion through the slide service fails exactly when the
slide number falls outside the session's current 1..N range, rollback fails
exactly when the slide is absent or the version index lies outside
[0, number of versions), and a failed operation leaves the session exactly
as it was. -/
theorem C8_failure_conditions (session : SessionModel)
    (append_number rollback_number version_index : Int)
    (t : String) (c : List String) (sn : Option String) (instr : Option String)
    (hnum : ∀ k : Nat, ∀ s, session.slides[k]? = some s → s.slide_number = (k : Int) + 1) :
    (service_update_slide session append_number t c sn instr = none ↔
      append_number - 1 < 0 ∨ (session.slides.length : Int) ≤ append_number - 1) ∧
    (manager_rollback_slide session rollback_number version_index = none ↔
      get_slide session rollback_number = none ∨
      ∃ s, get_slide session rollback_number = some s ∧
        (version_index < 0 ∨ (s.versions.length : Int) ≤ version_index)) ∧
    (service_update_slide session append_number t c sn instr = none →
      (service_update_slide session append_number t c sn instr).getD session = session) ∧
    (manager_rollback_slide session rollback_number version_index = none →
      (manager_rollback_slide session rollback_number version_index).getD session = session) := by
  refine ⟨?_, ?_, fun h => by rw [h]; rfl, fun h => by rw [h]; rfl⟩
  · by_cases hc : append_number - 1 < 0 ∨ (session.slides.length : Int) ≤ append_number - 1
    · simp only [service_update_slide]
      rw [if_pos hc]
      exact iff_of_true rfl hc
    · simp only [service_update_slide]
      rw [if_neg hc]
      refine iff_of_false ?_ hc
      push_neg at hc
      intro hnone
      have hk : (append_number - 1).toNat < session.slides.length := by omega
      have hs0 : session.slides[(append_number - 1).toNat]? =
          some (session.slides[(append_number - 1).toNat]) := List.getElem?_eq_getElem hk
      have hmem : session.slides[(append_number - 1).toNat] ∈ session.slides :=
        List.getElem_mem hk
      have hnumeq : (session.slides[(append_number - 1).toNat]).slide_number = append_number := by
        have := hnum _ _ hs0
        omega
      have hfind : ∃ s, session.slides.find? (fun x => x.slide_number == append_number) = some s := by
        have : (session.slides.find? (fun x => x.slide_number == append_number)).isSome := by
          rw [List.find?_isSome]
          exact ⟨_, hmem, by simp only [beq_iff_eq]; exact hnumeq⟩
        exact Option.isSome_iff_exists.mp this
      rcases hfind with ⟨s0, hs0f⟩
      have := (replaceSlide_eq_none session.slides append_number _).mp
        (by simpa [manager_update_slide, Option.map_eq_none'] using hnone) s0 hs0f
      exact absurd this (by simp)
  · have hbase : manager_rollback_slide session rollback_number version_index = none ↔
        ∀ s, session.slides.find? (fun x => x.slide_number == rollback_number) = some s →
          rollback_slide_version s version_index = none := by
      rw [manager_rollback_slide, Option.map_eq_none']
      exact replaceSlide_eq_none session.slides rollback_number _
    rcases hfind : get_slide session rollback_number with _ | s0
    · simp only [get_slide] at hfind
      simp [hbase, hfind]
    · simp only [get_slide] at hfind
      simp [hbase, hfind, rollback_eq_none_iff]

/-- A concrete two-slide session for the C8 witness. -/
def c8_session : SessionModel :=
  ⟨[create_slide 1 "A" ["a"] none "Initial generation",
    create_slide 2 "B" ["b"] none "Initial generation"]⟩

/-- Witness for C8 on a two-slide session: slide number 3 is out of range for
append, rollback of slide 1 to version 5 fails, and the failed operations
leave the session unchanged. -/
theorem C8_failure_conditions_witness :
    (service_update_slide c8_session 3 "t" ["c"] none none = none ↔
      (3 : Int) - 1 < 0 ∨ (c8_session.slides.length : Int) ≤ 3 - 1) ∧
    (manager_rollback_slide c8_session 1 5 = none ↔
      get_slide c8_session 1 = none ∨
      ∃ s, get_slide c8_session 1 = some s ∧
        ((5 : Int) < 0 ∨ (s.versions.length : Int) ≤ 5)) ∧
    (service_update_slide c8_session 3 "t" ["c"] none none = none →
      (service_update_slide c8_session 3 "t" ["c"] none none).getD c8_session = c8_session) ∧
    (manager_rollback_slide c8_session 1 5 = none →
      (manager_rollback_slide c8_session 1 5).getD c8_session = c8_session) := by
  refine C8_failure_conditions c8_session 3 1 5 "t" ["c"] none none ?_
  intro k s h
  simp only [c8_session] at h
  match k with
  | 0 =>
    simp only [List.getElem?_cons_zero, Option.some_inj] at h
    subst h
    decide
  | 1 =>
    simp only [List.getElem?_cons_succ, List.getElem?_cons_zero, Option.some_inj] at h
    subst h
    decide
  | (n + 2) => simp at h

/-! ## Claim C10 -/

/-- Claim C10: replacing a session's slide sequence through
SessionManager.update_session persists, for each supplied slide, only the
version its current pointer selects, stored as version 0 with instruction
"Initial generation"; every other supplied version and the current version's
own instruction text are discarded. -/
theorem C10_update_session_erases_history (slides : List SlideWithHistory)
    (h : ∀ sw ∈ slides, sw.current_version < sw.versions.length) :
    ∃ result, session_update_slides slides = some result ∧
      result.length = slides.length ∧
      ∀ k : Nat, ∀ sw, slides[k]? = some sw → ∀ cv,
        sw.versions[sw.current_version]? = some cv →
        result[k]? = some
          { slide_number := sw.slide_number
            title := cv.title
            content_json := cv.content
            speaker_notes := cv.speaker_notes
            current_version := 0
            versions := [{ version_number := 0
                           title := cv.title
                           content_json := cv.content
                           speaker_notes := cv.speaker_notes
                           instruction := some "Initial generation" }] } := by
  induction slides with
  | nil => exact ⟨[], rfl, rfl, by simp⟩
  | cons sw rest ih =>
    have hlt : sw.current_version < sw.versions.length := h sw (List.mem_cons_self _ _)
    obtain ⟨cv0, hcv⟩ : ∃ cv0, sw.versions[sw.current_version]? = some cv0 :=
      ⟨_, List.getElem?_eq_getElem hlt⟩
    rcases ih (fun x hx => h x (List.mem_cons_of_mem _ hx)) with ⟨r, hr, hlen, hidx⟩
    refine ⟨create_slide sw.slide_number cv0.title cv0.content cv0.speaker_notes
        "Initial generation" :: r, ?_, ?_, ?_⟩
    · simp only [session_update_slides, hcv, hr, Option.map_some']
    · simp [hlen]
    · intro k sw2 hsw2 cv hcv2
      cases k with
      | zero =>
        simp only [List.getElem?_cons_zero, Option.some_inj] at hsw2
        subst hsw2
        rw [hcv] at hcv2
        cases hcv2
        simp [create_slide]
      | succ k =>
        simp only [List.getElem?_cons_succ] at hsw2 ⊢
        exact hidx k sw2 hsw2 cv hcv2

/-- Witness for C10 on a slide carrying two versions and a rolled-back
pointer: only the pointed-at version survives, renumbered 0, with its
instruction replaced. -/
theorem C10_update_session_erases_history_witness :
    ∃ result, session_update_slides
        [{ slide_number := 1
           current_version := 0
           versions := [{ version := 0
                          title := "T0"
                          content := ["b0"]
                          speaker_notes := none
                          instruction := some "Initial generation" },
                        { version := 1
                          title := "T1"
                          content := ["b1"]
                          speaker_notes := none
                          instruction := some "make it shorter" }] }] = some result ∧
      result.length = 1 ∧
      ∀ k : Nat, ∀ sw,
        ([{ slide_number := 1
            current_version := 0
            versions := [{ version := 0
                           title := "T0"
                           content := ["b0"]
                           speaker_notes := none
                           instruction := some "Initial generation" },
                         { version := 1
                           title := "T1"
                           content := ["b1"]
                           speaker_notes := none
                           instruction := some "make it shorter" }] }] :
          List SlideWithHistory)[k]? = some sw → ∀ cv,
        sw.versions[sw.current_version]? = some cv →
        result[k]? = some
          { slide_number := sw.slide_number
            title := cv.title
            content_json := cv.content
            speaker_notes := cv.speaker_notes
            current_version := 0
            versions := [{ version_number := 0
                           title := cv.title
                           content_json := cv.content
                           speaker_notes := cv.speaker_notes
                           instruction := some "Initial generation" }] } := by
  exact C10_update_session_erases_history _ (by decide)

/-! ## Helper lemmas about the router loop -/

/-- A successful response at the head of the candidate list is returned at
once, cooldowns untouched. -/
lemma try_providers_success_head (failMsg : Option String → ProviderResponse)
    (c : ProviderClient) (rest : List ProviderClient) (r : ProviderResponse)
    (sa : ProviderStatus) (le : Option String) (cds : List (String × Nat)) (now : Nat)
    (hc : c.outcome = CallOutcome.ok r sa) (hr : r.success = true) :
    try_providers failMsg (c :: rest) le cds now = (r, cds) := by
  simp [try_providers, hc, hr]

/-- Walking past a prefix of failing candidates only changes the remembered
last error and the cooldown map, independently of what follows. -/
lemma try_providers_skip (failMsg : Option String → ProviderResponse) :
    ∀ (pre : List ProviderClient) (le : Option String) (cds : List (String × Nat)) (now : Nat),
      (∀ x ∈ pre, clientCallFails x = true) →
      ∃ le2 cds2, ∀ tail, try_providers failMsg (pre ++ tail) le cds now =
        try_providers failMsg tail le2 cds2 now := by
  intro pre
  induction pre with
  | nil =>
    intro le cds now _
    exact ⟨le, cds, fun _ => rfl⟩
  | cons x pre ih =>
    intro le cds now hpre
    have hx := hpre x (List.mem_cons_self _ _)
    cases hox : x.outcome with
    | ok resp sa =>
      have hrs : resp.success = false := by
        simpa [clientCallFails, hox] using hx
      obtain ⟨le2, cds2, htail⟩ := ih resp.error
        (if sa = ProviderStatus.rate_limited then set_cooldown cds now x.name else cds) now
        (fun y hy => hpre y (List.mem_cons_of_mem _ hy))
      refine ⟨le2, cds2, fun tail => ?_⟩
      rw [List.cons_append,
        show try_providers failMsg (x :: (pre ++ tail)) le cds now =
          try_providers failMsg (pre ++ tail) resp.error
            (if sa = ProviderStatus.rate_limited then set_cooldown cds now x.name else cds) now
          from by simp [try_providers, hox, hrs]]
      exact htail tail
    | exn m =>
      obtain ⟨le2, cds2, htail⟩ := ih (some m) cds now
        (fun y hy => hpre y (List.mem_cons_of_mem _ hy))
      refine ⟨le2, cds2, fun tail => ?_⟩
      rw [List.cons_append,
        show try_providers failMsg (x :: (pre ++ tail)) le cds now =
          try_providers failMsg (pre ++ tail) (some m) cds now
          from by simp [try_providers, hox]]
      exact htail tail

/-- When every candidate fails, the loop falls through to the synthetic
failure built from the last candidate's error. -/
lemma try_providers_all_fail (failMsg : Option String → ProviderResponse)
    (l : List ProviderClient) (c : ProviderClient) (le : Option String)
    (cds : List (String × Nat)) (now : Nat)
    (hfail : ∀ x ∈ l ++ [c], clientCallFails x = true) :
    (try_providers failMsg (l ++ [c]) le cds now).1 = failMsg (lastErrorOf c) := by
  obtain ⟨le2, cds2, htail⟩ := try_providers_skip failMsg l le cds now
    (fun x hx => hfail x (List.mem_append_left _ hx))
  rw [htail [c]]
  have hcf := hfail c (List.mem_append_right _ (List.mem_singleton_self c))
  cases hoc : c.outcome with
  | ok resp sa =>
    have hrs : resp.success = false := by simpa [clientCallFails, hoc] using hcf
    simp [try_providers, hoc, hrs, lastErrorOf]
  | exn m =>
    simp [try_providers, hoc, lastErrorOf]

/-! ## Claim C2 -/

/-- Claim C2: when the candidate list get_available_providers produced
splits as pre ++ c :: rest where every client in pre fails and c's call
returns a successful response r, generate_text returns r itself, unchanged,
and the loop's outcome is identical to running it with every candidate
after c removed: the candidates after c are never invoked (first success
wins). -/
theorem C2_first_success_wins (providers pre rest : List ProviderClient)
    (c : ProviderClient) (r : ProviderResponse) (sa : ProviderStatus)
    (cooldowns cd1 : List (String × Nat)) (now : Nat)
    (havail : get_available_providers providers cooldowns now = (pre ++ c :: rest, cd1))
    (hpre : ∀ x ∈ pre, clientCallFails x = true)
    (hc : c.outcome = CallOutcome.ok r sa) (hr : r.success = true) :
    (generate_text providers cooldowns now).1 = r ∧
    ∀ le cds, try_providers all_failed_text_response (pre ++ c :: rest) le cds now =
      try_providers all_failed_text_response (pre ++ [c]) le cds now := by
  constructor
  · have hne : (pre ++ c :: rest).isEmpty = false := by
      cases pre <;> simp [List.isEmpty]
    obtain ⟨le2, cds2, htail⟩ := try_providers_skip all_failed_text_response pre none cd1 now hpre
    simp only [generate_text, havail, hne, Bool.false_eq_true, if_false]
    rw [htail (c :: rest), try_providers_success_head _ _ _ _ _ _ _ _ hc hr]
  · intro le cds
    obtain ⟨le2, cds2, htail⟩ := try_providers_skip all_failed_text_response pre le cds now hpre
    rw [htail (c :: rest), htail [c],
      try_providers_success_head _ _ _ _ _ _ _ _ hc hr,
      try_providers_success_head _ _ _ _ _ _ _ _ hc hr]

/-- Witness for C2: a rate-limited first candidate, a succeeding second
candidate, and a third candidate that is never reached. -/
theorem C2_first_success_wins_witness :
    (generate_text
      [{ name := "Groq"
         status := ProviderStatus.available
         outcome := CallOutcome.ok
           { success := false, content := "", provider_name := "Groq", model := "m1",
             tokens_used := none, error := some "Rate limit exceeded" }
           ProviderStatus.rate_limited },
       { name := "Gemini"
         status := ProviderStatus.available
         outcome := CallOutcome.ok
           { success := true, content := "hello", provider_name := "Gemini", model := "m2",
             tokens_used := some 5, error := none }
           ProviderStatus.available },
       { name := "Third"
         status := ProviderStatus.available
         outcome := CallOutcome.exn "never invoked" }] [] 0).1 =
      { success := true, content := "hello", provider_name := "Gemini", model := "m2",
        tokens_used := some 5, error := none } := by
  exact (C2_first_success_wins _
    [{ name := "Groq"
       status := ProviderStatus.available
       outcome := CallOutcome.ok
         { success := false, content := "", provider_name := "Groq", model := "m1",
           tokens_used := none, error := some "Rate limit exceeded" }
         ProviderStatus.rate_limited }]
    [{ name := "Third"
       status := ProviderStatus.available
       outcome := CallOutcome.exn "never invoked" }]
    { name := "Gemini"
      status := ProviderStatus.available
      outcome := CallOutcome.ok
        { success := true, content := "hello", provider_name := "Gemini", model := "m2",
          tokens_used := some 5, error := none }
        ProviderStatus.available }
    { success := true, content := "hello", provider_name := "Gemini", model := "m2",
      tokens_used := some 5, error := none }
    ProviderStatus.available [] [] 0 (by decide) (by decide) rfl rfl).1

/-! ## Claim C9 -/

/-- Claim C9: when the candidate list is non-empty and every candidate's
call fails (failed response, rate-limit, or raised exception), generate_text
and generate_json return a failure whose provider identity is "none" and
whose error text ends with the last candidate's error message. -/
theorem C9_all_candidates_fail (providers pre : List ProviderClient) (c : ProviderClient)
    (cooldowns cd1 : List (String × Nat)) (now : Nat)
    (havail : get_available_providers providers cooldowns now = (pre ++ [c], cd1))
    (hfail : ∀ x ∈ pre ++ [c], clientCallFails x = true) :
    (generate_text providers cooldowns now).1.success = false ∧
    (generate_text providers cooldowns now).1.provider_name = "none" ∧
    (generate_text providers cooldowns now).1.error =
      some ("All providers failed. Last error: " ++ pyOptStr (lastErrorOf c)) ∧
    (generate_json providers cooldowns now).1.success = false ∧
    (generate_json providers cooldowns now).1.provider_name = "none" ∧
    (generate_json providers cooldowns now).1.error =
      some ("All providers failed for JSON generation. Last error: " ++
        pyOptStr (lastErrorOf c)) := by
  have hne : (pre ++ [c]).isEmpty = false := by
    cases pre <;> simp [List.isEmpty]
  have ht : (generate_text providers cooldowns now).1 =
      all_failed_text_response (lastErrorOf c) := by
    simp only [generate_text, havail, hne, Bool.false_eq_true, if_false]
    exact try_providers_all_fail _ pre c none cd1 now hfail
  have hj : (generate_json providers cooldowns now).1 =
      all_failed_json_response (lastErrorOf c) := by
    simp only [generate_json, havail, hne, Bool.false_eq_true, if_false]
    exact try_providers_all_fail _ pre c none cd1 now hfail
  rw [ht, hj]
  exact ⟨rfl, rfl, rfl, rfl, rfl, rfl⟩

/-- Witness for C9: two candidates, one failing by response, the last one
raising; the synthetic failure carries the raiser's message. -/
theorem C9_all_candidates_fail_witness :
    (generate_text
      [{ name := "Groq"
         status := ProviderStatus.available
         outcome := CallOutcome.ok
           { success := false, content := "", provider_name := "Groq", model := "m1",
             tokens_used := none, error := some "Rate limit exceeded" }
           ProviderStatus.rate_limited },
       { name := "Gemini"
         status := ProviderStatus.error
         outcome := CallOutcome.exn "boom" }] [] 0).1.error =
      some ("All providers failed. Last error: " ++ pyOptStr (some "boom")) ∧
    (generate_json
      [{ name := "Groq"
         status := ProviderStatus.available
         outcome := CallOutcome.ok
           { success := false, content := "", provider_name := "Groq", model := "m1",
             tokens_used := none, error := some "Rate limit exceeded" }
           ProviderStatus.rate_limited },
       { name := "Gemini"
         status := ProviderStatus.error
         outcome := CallOutcome.exn "boom" }] [] 0).1.provider_name = "none" := by
  have h := C9_all_candidates_fail
    [{ name := "Groq"
       status := ProviderStatus.available
       outcome := CallOutcome.ok
         { success := false, content := "", provider_name := "Groq", model := "m1",
           tokens_used := none, error := some "Rate limit exceeded" }
         ProviderStatus.rate_limited },
     { name := "Gemini"
       status := ProviderStatus.error
       outcome := CallOutcome.exn "boom" }]
    [{ name := "Groq"
       status := ProviderStatus.available
       outcome := CallOutcome.ok
         { success := false, content := "", provider_name := "Groq", model := "m1",
           tokens_used := none, error := some "Rate limit exceeded" }
         ProviderStatus.rate_limited }]
    { name := "Gemini"
      status := ProviderStatus.error
      outcome := CallOutcome.exn "boom" }
    [] [] 0 (by decide) (by decide)
  exact ⟨h.2.2.1, h.2.2.2.2.1⟩

/-! ## Claim C3 -/

/-- Dict lookup one step. -/
lemma lookupCooldown_cons (q : String × Nat) (l : List (String × Nat)) (n : String) :
    lookupCooldown (q :: l) n = if q.1 == n then some q.2 else lookupCooldown l n := by
  unfold lookupCooldown
  rw [List.find?_cons]
  by_cases h : q.1 == n <;> simp [h]

/-- Lookup after the lazy deletion: the deleted key reads none, every other
key is untouched. -/
lemma lookupCooldown_erase (cds : List (String × Nat)) (name name2 : String) :
    lookupCooldown (eraseCooldown cds name) name2 =
      if name2 = name then none else lookupCooldown cds name2 := by
  induction cds with
  | nil =>
    by_cases h : name2 = name <;> simp [lookupCooldown, eraseCooldown, h]
  | cons p rest ih =>
    have hfc : eraseCooldown (p :: rest) name =
        if (p.1 != name) = true then p :: eraseCooldown rest name
        else eraseCooldown rest name := by
      simp [eraseCooldown, List.filter_cons]
    by_cases hp : p.1 = name
    · rw [hfc, if_neg (by simp [hp]), ih]
      by_cases h2 : name2 = name
      · simp [h2]
      · have hq : (p.1 == name2) = false := by
          rw [hp]
          exact beq_eq_false_iff_ne.mpr (fun hh => h2 hh.symm)
        simp [h2, lookupCooldown_cons, hq]
    · rw [hfc, if_pos (by simp [hp])]
      rw [lookupCooldown_cons, lookupCooldown_cons, ih]
      by_cases hq : p.1 = name2
      · have h2 : ¬(name2 = name) := fun hh => hp (hq.trans hh)
        simp [hq, h2]
      · have hqb : (p.1 == name2) = false := beq_eq_false_iff_ne.mpr hq
        simp [hqb]

/-- The Boolean _is_in_cooldown answers the pure cooldown predicate. -/
lemma is_in_cooldown_fst (cds : List (String × Nat)) (now : Nat) (name : String) :
    (is_in_cooldown cds now name).1 = pure_in_cooldown cds now name := by
  unfold is_in_cooldown pure_in_cooldown
  cases lookupCooldown cds name with
  | none => rfl
  | some e => by_cases h : e < now <;> simp [h]

/-- The lazy deletion inside _is_in_cooldown only removes an expired entry,
so the pure cooldown predicate is unchanged for every provider. -/
lemma is_in_cooldown_snd_pure (cds : List (String × Nat)) (now : Nat)
    (name name2 : String) :
    pure_in_cooldown (is_in_cooldown cds now name).2 now name2 =
      pure_in_cooldown cds now name2 := by
  unfold is_in_cooldown
  cases hl : lookupCooldown cds name with
  | none => rfl
  | some e =>
    by_cases he : e < now
    · simp only [he, if_pos]
      unfold pure_in_cooldown
      rw [lookupCooldown_erase]
      by_cases h2 : name2 = name
      · subst h2
        rw [if_pos rfl, hl]
        simp [he]
      · rw [if_neg h2]
    · simp [he]

/-- The available-provider computation equals a filter by the pure cooldown
predicate and the status test, in the original priority order. -/
lemma get_available_providers_fst (providers : List ProviderClient) :
    ∀ (cds cds0 : List (String × Nat)) (now : Nat),
      (∀ nm, pure_in_cooldown cds now nm = pure_in_cooldown cds0 now nm) →
      (get_available_providers providers cds now).1 =
        providers.filter (fun p => !pure_in_cooldown cds0 now p.name &&
          (p.status == ProviderStatus.available || p.status == ProviderStatus.error)) := by
  induction providers with
  | nil => intro cds cds0 now _; rfl
  | cons p rest ih =>
    intro cds cds0 now h
    have hsnd : ∀ nm, pure_in_cooldown (is_in_cooldown cds now p.name).2 now nm =
        pure_in_cooldown cds0 now nm :=
      fun nm => (is_in_cooldown_snd_pure cds now p.name nm).trans (h nm)
    have ihr := ih (is_in_cooldown cds now p.name).2 cds0 now hsnd
    simp only [get_available_providers]
    split
    next hin =>
      have hpc : pure_in_cooldown cds0 now p.name = true := by
        rw [← h p.name, ← is_in_cooldown_fst]
        exact hin
      rw [ihr, List.filter_cons]
      simp [hpc]
    next hnin =>
      have hpc : pure_in_cooldown cds0 now p.name = false := by
        rw [← h p.name, ← is_in_cooldown_fst]
        exact Bool.not_eq_true _ ▸ hnin
      split
      next hs =>
        rw [List.filter_cons]
        have hb : (!pure_in_cooldown cds0 now p.name &&
            (p.status == ProviderStatus.available || p.status == ProviderStatus.error)) = true := by
          rcases hs with h1 | h1 <;> simp [hpc, h1]
        rw [if_pos hb]
        simp [ihr]
      next hs =>
        rw [List.filter_cons]
        push_neg at hs
        have h1 : (p.status == ProviderStatus.available) = false :=
          beq_eq_false_iff_ne.mpr hs.1
        have h2 : (p.status == ProviderStatus.error) = false :=
          beq_eq_false_iff_ne.mpr hs.2
        rw [if_neg (by simp [h1, h2])]
        exact ihr

/-- A provider whose self-reported status is RATE_LIMITED and which has no
entry in the router's cooldown map. -/
def c3_provider : ProviderClient :=
  { name := "Groq"
    status := ProviderStatus.rate_limited
    outcome := CallOutcome.exn "irrelevant" }

/-- Counterexample to C3 as stated: the spec's candidate rule (configured
minus cooldown minus Unconfigured) keeps a RATE_LIMITED-status provider that
is not under cooldown, but get_available_providers drops it, because the
code keeps only the AVAILABLE and ERROR statuses. -/
theorem C3_counterexample :
    (get_available_providers [c3_provider] [] 0).1 ≠
      spec_candidate_providers [c3_provider] [] 0 := by
  decide

/-- Claim C3 as amended: the candidate list used by generate_text and
generate_json equals exactly the configured providers that are not currently
under cooldown and whose self-reported status is Available or Errored (so
both Unconfigured and RateLimited statuses exclude a provider), kept in
fixed priority order; in particular a provider under cooldown is never
selected. -/
theorem C3_candidate_list (providers : List ProviderClient)
    (cds : List (String × Nat)) (now : Nat) :
    (get_available_providers providers cds now).1 =
      providers.filter (fun p => !pure_in_cooldown cds now p.name &&
        (p.status == ProviderStatus.available || p.status == ProviderStatus.error)) :=
  get_available_providers_fst providers cds cds now (fun _ => rfl)

/-! ## Claim C4 -/

/-- Claim C4: for a provider text call that reported success in JSON mode,
the fenced-code markers are stripped; if the stripped text parses as JSON
the call stays successful with the stripped text as its content; if parsing
fails the response is downgraded to a failure carrying the decode error,
even though the underlying provider call reported success. -/
theorem C4_json_mode (parse : String → Except String Unit) (response : ProviderResponse)
    (hs : response.success = true) :
    (∀ u, parse (strip_json_markers response.content) = Except.ok u →
      provider_generate_json parse response =
        { response with content := strip_json_markers response.content }) ∧
    (∀ e, parse (strip_json_markers response.content) = Except.error e →
      (provider_generate_json parse response).success = false ∧
      provider_generate_json parse response =
        { response with success := false
                        error := some ("Invalid JSON response: " ++ e) }) := by
  constructor
  · intro u hp
    simp [provider_generate_json, hs, hp]
  · intro e hp
    constructor <;> simp [provider_generate_json, hs, hp]

/-- A concrete stand-in for json.loads accepting exactly the two-element
array used by the witness. -/
def c4_parse (s : String) : Except String Unit :=
  if s = "[1, 2]" then Except.ok ()
  else Except.error "Expecting value: line 1 column 1 (char 0)"

/-- A successful provider response whose body is wrapped in a fenced json
code block. -/
def c4_fenced_response : ProviderResponse :=
  { success := true
    content := "```json\n[1, 2]\n```"
    provider_name := "Groq"
    model := "llama-3.1-8b-instant"
    tokens_used := some 42
    error := none }

/-- A successful provider response whose body does not parse as JSON. -/
def c4_bad_response : ProviderResponse :=
  { success := true
    content := "here is prose instead of JSON"
    provider_name := "Groq"
    model := "llama-3.1-8b-instant"
    tokens_used := some 7
    error := none }

/-- Witness for C4: the fenced body is stripped and returned as success; the
prose body is downgraded to failure with a descriptive error. -/
theorem C4_json_mode_witness :
    provider_generate_json c4_parse c4_fenced_response =
      { c4_fenced_response with content := strip_json_markers c4_fenced_response.content } ∧
    (provider_generate_json c4_parse c4_bad_response).success = false ∧
    provider_generate_json c4_parse c4_bad_response =
      { c4_bad_response with
        success := false
        error := some ("Invalid JSON response: " ++
          "Expecting value: line 1 column 1 (char 0)") } := by
  refine ⟨(C4_json_mode c4_parse c4_fenced_response rfl).1 () ?_, ?_⟩
  · show c4_parse (strip_json_markers c4_fenced_response.content) = Except.ok ()
    have hstrip : strip_json_markers c4_fenced_response.content = "[1, 2]" := by decide
    rw [hstrip]
    rfl
  · exact (C4_json_mode c4_parse c4_bad_response rfl).2
      "Expecting value: line 1 column 1 (char 0)"
      (by
        have hstrip : strip_json_markers c4_bad_response.content =
            "here is prose instead of JSON" := by decide
        rw [hstrip]
        rfl)

/-! ## Helper lemmas about the job engine's dict -/

/-- Looking a fresh key up skips the existing entries. -/
lemma find?_key_append_of_fresh (jobs l2 : List (String × Job)) (k : String)
    (h : ∀ p ∈ jobs, p.1 ≠ k) :
    (jobs ++ l2).find? (fun p => p.1 == k) = l2.find? (fun p => p.1 == k) := by
  induction jobs with
  | nil => rfl
  | cons q rest ih =>
    have hq : (q.1 == k) = false := beq_eq_false_iff_ne.mpr (h q (List.mem_cons_self _ _))
    rw [List.cons_append, List.find?_cons]
    simp only [hq]
    exact ih (fun p hp => h p (List.mem_cons_of_mem _ hp))

/-- The in-place job mutation transforms the looked-up entry and nothing
else. -/
lemma find?_setJob (jobs : List (String × Job)) (k jid : String) (f : Job → Job) :
    (setJob jobs k f).find? (fun p => p.1 == jid) =
      (jobs.find? (fun p => p.1 == jid)).map
        (fun p => if p.1 == k then (p.1, f p.2) else p) := by
  unfold setJob
  rw [List.find?_map]
  have hpred : ((fun p : String × Job => p.1 == jid) ∘
      (fun p => if p.1 == k then (p.1, f p.2) else p)) =
      (fun p : String × Job => p.1 == jid) := by
    funext p
    by_cases hk : (p.1 == k) = true <;> simp [Function.comp, hk]
  rw [hpred]

/-- Mutating one job leaves every other key's lookup unchanged. -/
lemma find?_setJob_ne (jobs : List (String × Job)) (k jid : String) (f : Job → Job)
    (h : jid ≠ k) :
    (setJob jobs k f).find? (fun p => p.1 == jid) =
      jobs.find? (fun p => p.1 == jid) := by
  rw [find?_setJob]
  rcases hf : jobs.find? (fun p => p.1 == jid) with _ | p
  · rw [hf]
    rfl
  · have hp : p.1 = jid := by simpa using List.find?_some hf
    have hk : (p.1 == k) = false := beq_eq_false_iff_ne.mpr (by rw [hp]; exact h)
    rw [hf]
    simp only [Option.map_some']
    rw [if_neg (by simp [hk])]

/-- Mutating a job rewrites its own lookup. -/
lemma find?_setJob_self (jobs : List (String × Job)) (k : String) (f : Job → Job) :
    (setJob jobs k f).find? (fun p => p.1 == k) =
      (jobs.find? (fun p => p.1 == k)).map (fun p => (p.1, f p.2)) := by
  rw [find?_setJob]
  rcases hf : jobs.find? (fun p => p.1 == k) with _ | p
  · rw [hf]
    rfl
  · have hp : p.1 = k := by simpa using List.find?_some hf
    rw [hf]
    simp [hp]

/-- Processing queued ids that do not mention a job leaves its lookup
unchanged. -/
lemma find?_foldl_process_not_mem (l : List String) (jobs : List (String × Job))
    (jid : String) (h : jid ∉ l) :
    (l.foldl process_one jobs).find? (fun p => p.1 == jid) =
      jobs.find? (fun p => p.1 == jid) := by
  induction l generalizing jobs with
  | nil => rfl
  | cons x xs ih =>
    rw [List.foldl_cons, ih _ (fun hm => h (List.mem_cons_of_mem _ hm))]
    exact find?_setJob_ne jobs x jid _ (fun he => h (he ▸ List.mem_cons_self _ _))

/-! ## Claim C5 -/

/-- A manager holding one job whose task raises an exception with an empty
str(e). -/
def c5_mgr : JobManager :=
  create_job { jobs := [], queue := [] } "job-1" "sess-1" "generate" (TaskOutcome.raises "")

/-- Counterexample to C5 as stated: a task raising an exception whose str is
empty leaves the job Failed with an empty error text, not a non-empty one —
_execute_job records str(e) verbatim. -/
theorem C5_counterexample :
    (get_job (process_jobs c5_mgr) "job-1").map (fun j => j.status) =
      some JobStatus.failed ∧
    (get_job (process_jobs c5_mgr) "job-1").map (fun j => j.error) = some (some "") := by
  constructor <;> rfl

/-- Claim C5 as amended: immediately after submit and before the consumer
loop runs, a job reads back Pending with progress 0; after the loop runs,
a normally returning task leaves its job Completed with progress 100, and a
task that raises leaves its job Failed with error text equal to the raised
exception's str (non-empty exactly when that str is), while the failure does
not terminate the loop: a job queued behind the failing one is still
processed to its own terminal state. -/
theorem C5_job_lifecycle (m : JobManager) (jid1 jid2 sid1 sid2 ty1 ty2 e : String)
    (outcome2 : TaskOutcome)
    (hf1 : ∀ p ∈ m.jobs, p.1 ≠ jid1) (hf2 : ∀ p ∈ m.jobs, p.1 ≠ jid2)
    (hq1 : jid1 ∉ m.queue) (hq2 : jid2 ∉ m.queue) (hne : jid1 ≠ jid2) :
    (∃ j, get_job (create_job (create_job m jid1 sid1 ty1 (TaskOutcome.raises e))
        jid2 sid2 ty2 outcome2) jid1 = some j ∧
      j.status = JobStatus.pending ∧ j.progress = 0) ∧
    (∃ j, get_job (create_job (create_job m jid1 sid1 ty1 (TaskOutcome.raises e))
        jid2 sid2 ty2 outcome2) jid2 = some j ∧
      j.status = JobStatus.pending ∧ j.progress = 0) ∧
    (∃ j, get_job (process_jobs (create_job (create_job m jid1 sid1 ty1
        (TaskOutcome.raises e)) jid2 sid2 ty2 outcome2)) jid1 = some j ∧
      j.status = JobStatus.failed ∧ j.error = some e) ∧
    (outcome2 = TaskOutcome.success →
      ∃ j, get_job (process_jobs (create_job (create_job m jid1 sid1 ty1
          (TaskOutcome.raises e)) jid2 sid2 ty2 outcome2)) jid2 = some j ∧
        j.status = JobStatus.completed ∧ j.progress = 100) ∧
    (∀ e2, outcome2 = TaskOutcome.raises e2 →
      ∃ j, get_job (process_jobs (create_job (create_job m jid1 sid1 ty1
          (TaskOutcome.raises e)) jid2 sid2 ty2 outcome2)) jid2 = some j ∧
        j.status = JobStatus.failed ∧ j.error = some e2) := by
  set job1 : Job :=
    { job_id := jid1, session_id := sid1, job_type := ty1, status := JobStatus.pending,
      progress := 0, message := "Job queued", error := none,
      task_outcome := TaskOutcome.raises e } with hjob1
  set job2 : Job :=
    { job_id := jid2, session_id := sid2, job_type := ty2, status := JobStatus.pending,
      progress := 0, message := "Job queued", error := none,
      task_outcome := outcome2 } with hjob2
  have hjobs : (create_job (create_job m jid1 sid1 ty1 (TaskOutcome.raises e))
      jid2 sid2 ty2 outcome2).jobs = m.jobs ++ [(jid1, job1), (jid2, job2)] := by
    simp [create_job]
  have hqueue : (create_job (create_job m jid1 sid1 ty1 (TaskOutcome.raises e))
      jid2 sid2 ty2 outcome2).queue = m.queue ++ [jid1, jid2] := by
    simp [create_job]
  have hfind1 : (m.jobs ++ [(jid1, job1), (jid2, job2)]).find? (fun p => p.1 == jid1) =
      some (jid1, job1) := by
    rw [find?_key_append_of_fresh _ _ _ hf1, List.find?_cons]
    simp
  have hfind2 : (m.jobs ++ [(jid1, job1), (jid2, job2)]).find? (fun p => p.1 == jid2) =
      some (jid2, job2) := by
    rw [find?_key_append_of_fresh _ _ _ hf2, List.find?_cons]
    have : (jid1 == jid2) = false := beq_eq_false_iff_ne.mpr hne
    simp [this, List.find?_cons]
  have hfold : (process_jobs (create_job (create_job m jid1 sid1 ty1
      (TaskOutcome.raises e)) jid2 sid2 ty2 outcome2)).jobs =
      process_one (process_one
        (m.queue.foldl process_one (m.jobs ++ [(jid1, job1), (jid2, job2)]))
        jid1) jid2 := by
    rw [process_jobs, hjobs, hqueue, List.foldl_append]
    rfl
  have hA1 : ((m.queue.foldl process_one (m.jobs ++ [(jid1, job1), (jid2, job2)]))).find?
      (fun p => p.1 == jid1) = some (jid1, job1) := by
    rw [find?_foldl_process_not_mem _ _ _ hq1]
    exact hfind1
  have hA2 : ((m.queue.foldl process_one (m.jobs ++ [(jid1, job1), (jid2, job2)]))).find?
      (fun p => p.1 == jid2) = some (jid2, job2) := by
    rw [find?_foldl_process_not_mem _ _ _ hq2]
    exact hfind2
  have hB1 : (process_one (m.queue.foldl process_one
      (m.jobs ++ [(jid1, job1), (jid2, job2)])) jid1).find? (fun p => p.1 == jid1) =
      some (jid1, execute_job job1) := by
    rw [process_one, find?_setJob_self, hA1]
    rfl
  have hB2 : (process_one (m.queue.foldl process_one
      (m.jobs ++ [(jid1, job1), (jid2, job2)])) jid1).find? (fun p => p.1 == jid2) =
      some (jid2, job2) := by
    rw [process_one, find?_setJob_ne _ _ _ _ hne.symm]
    exact hA2
  have hC1 : (process_one (process_one (m.queue.foldl process_one
      (m.jobs ++ [(jid1, job1), (jid2, job2)])) jid1) jid2).find? (fun p => p.1 == jid1) =
      some (jid1, execute_job job1) := by
    rw [process_one, find?_setJob_ne _ _ _ _ hne]
    exact hB1
  have hC2 : (process_one (process_one (m.queue.foldl process_one
      (m.jobs ++ [(jid1, job1), (jid2, job2)])) jid1) jid2).find? (fun p => p.1 == jid2) =
      some (jid2, execute_job job2) := by
    rw [process_one, find?_setJob_self, hB2]
    rfl
  refine ⟨⟨job1, ?_, rfl, rfl⟩, ⟨job2, ?_, rfl, rfl⟩, ⟨execute_job job1, ?_, ?_, ?_⟩, ?_, ?_⟩
  · rw [get_job, hjobs, hfind1]
    rfl
  · rw [get_job, hjobs, hfind2]
    rfl
  · rw [get_job, hfold, hC1]
    rfl
  · simp [execute_job, hjob1]
  · simp [execute_job, hjob1]
  · intro h2
    refine ⟨execute_job job2, ?_, ?_, ?_⟩
    · rw [get_job, hfold, hC2]
      rfl
    · simp [execute_job, hjob2, h2]
    · simp [execute_job, hjob2, h2]
  · intro e2 h2
    refine ⟨execute_job job2, ?_, ?_, ?_⟩
    · rw [get_job, hfold, hC2]
      rfl
    · simp [execute_job, hjob2, h2]
    · simp [execute_job, hjob2, h2]

/-- Witness for C5 on an empty manager with a raising first job and a
succeeding second job. -/
theorem C5_job_lifecycle_witness :
    (∃ j, get_job (create_job (create_job { jobs := [], queue := [] }
        "job-a" "sess-1" "generate" (TaskOutcome.raises "boom"))
        "job-b" "sess-2" "generate" TaskOutcome.success) "job-a" = some j ∧
      j.status = JobStatus.pending ∧ j.progress = 0) ∧
    (∃ j, get_job (create_job (create_job { jobs := [], queue := [] }
        "job-a" "sess-1" "generate" (TaskOutcome.raises "boom"))
        "job-b" "sess-2" "generate" TaskOutcome.success) "job-b" = some j ∧
      j.status = JobStatus.pending ∧ j.progress = 0) ∧
    (∃ j, get_job (process_jobs (create_job (create_job { jobs := [], queue := [] }
        "job-a" "sess-1" "generate" (TaskOutcome.raises "boom"))
        "job-b" "sess-2" "generate" TaskOutcome.success)) "job-a" = some j ∧
      j.status = JobStatus.failed ∧ j.error = some "boom") ∧
    (TaskOutcome.success = TaskOutcome.success →
      ∃ j, get_job (process_jobs (create_job (create_job { jobs := [], queue := [] }
          "job-a" "sess-1" "generate" (TaskOutcome.raises "boom"))
          "job-b" "sess-2" "generate" TaskOutcome.success)) "job-b" = some j ∧
        j.status = JobStatus.completed ∧ j.progress = 100) ∧
    (∀ e2, TaskOutcome.success = TaskOutcome.raises e2 →
      ∃ j, get_job (process_jobs (create_job (create_job { jobs := [], queue := [] }
          "job-a" "sess-1" "generate" (TaskOutcome.raises "boom"))
          "job-b" "sess-2" "generate" TaskOutcome.success)) "job-b" = some j ∧
        j.status = JobStatus.failed ∧ j.error = some e2) := by
  exact C5_job_lifecycle { jobs := [], queue := [] } "job-a" "job-b" "sess-1" "sess-2"
    "generate" "generate" "boom" TaskOutcome.success
    (by simp) (by simp) (by simp) (by simp) (by decide)

/-! ## Claim C6 -/

/-- A manager holding one freshly created job. -/
def c6_mgr : JobManager :=
  create_job { jobs := [], queue := [] } "job-1" "sess-1" "generate" TaskOutcome.success

/-- Counterexample to C6 as stated: update_job_progress stores its integer
argument unvalidated, so passing 150 drives the job's progress outside
0-100. -/
theorem C6_counterexample :
    (get_job (update_job_progress c6_mgr "job-1" 150 "overflow") "job-1").map
      (fun j => j.progress) = some 150 ∧ ¬((150 : Int) ≤ 100) := by
  exact ⟨rfl, by decide⟩

/-- Claim C6 as amended: a freshly created job has progress 0, and under any
sequence of the progress-touching JobManager operations in which every
update_job_progress argument lies within 0-100, the job's progress stays an
integer within 0-100 (execution start writes 0, a normal completion writes
100, a failure leaves the last value); update_job_progress itself stores its
argument unvalidated, so the bound on its arguments is necessary. -/
theorem C6_progress_invariant (m : JobManager) (jid sid jtype : String)
    (oc : TaskOutcome) (ops : List JobOp) (j : Job)
    (hfresh : ∀ p ∈ m.jobs, p.1 ≠ jid)
    (hget : get_job (create_job m jid sid jtype oc) jid = some j)
    (hops : ∀ p msg, JobOp.update_progress p msg ∈ ops → 0 ≤ p ∧ p ≤ 100) :
    0 ≤ (ops.foldl applyJobOp j).progress ∧ (ops.foldl applyJobOp j).progress ≤ 100 := by
  have hj : j.progress = 0 := by
    have hlook : get_job (create_job m jid sid jtype oc) jid =
        some { job_id := jid, session_id := sid, job_type := jtype,
               status := JobStatus.pending, progress := 0, message := "Job queued",
               error := none, task_outcome := oc } := by
      rw [get_job, show (create_job m jid sid jtype oc).jobs = m.jobs ++
        [(jid, { job_id := jid, session_id := sid, job_type := jtype,
                 status := JobStatus.pending, progress := 0, message := "Job queued",
                 error := none, task_outcome := oc })] from rfl,
        find?_key_append_of_fresh _ _ _ hfresh, List.find?_cons]
      simp
    rw [hlook] at hget
    cases hget
    rfl
  have main : ∀ (ops : List JobOp) (j : Job), 0 ≤ j.progress → j.progress ≤ 100 →
      (∀ p msg, JobOp.update_progress p msg ∈ ops → 0 ≤ p ∧ p ≤ 100) →
      0 ≤ (ops.foldl applyJobOp j).progress ∧ (ops.foldl applyJobOp j).progress ≤ 100 := by
    intro ops
    induction ops with
    | nil => intro j h0 h1 _; exact ⟨h0, h1⟩
    | cons op rest ih =>
      intro j h0 h1 hops
      rw [List.foldl_cons]
      have hbounds : 0 ≤ (applyJobOp j op).progress ∧ (applyJobOp j op).progress ≤ 100 := by
        cases op with
        | update_progress p msg =>
          simpa [applyJobOp] using hops p msg (List.mem_cons_self _ _)
        | exec_start => simp [applyJobOp]
        | exec_finish =>
          cases hoc : j.task_outcome <;> simp [applyJobOp, hoc, h0, h1]
      exact ih _ hbounds.1 hbounds.2 (fun p msg hm => hops p msg (List.mem_cons_of_mem _ hm))
  exact main ops j (by rw [hj]) (by rw [hj]; norm_num) hops

/-- Witness for C6: a fresh job driven through an in-range update, an
execution start and a successful finish stays within 0-100. -/
theorem C6_progress_invariant_witness :
    0 ≤ (([JobOp.update_progress 50 "halfway", JobOp.exec_start,
        JobOp.exec_finish].foldl applyJobOp
      { job_id := "job-1", session_id := "sess-1", job_type := "generate",
        status := JobStatus.pending, progress := 0, message := "Job queued",
        error := none, task_outcome := TaskOutcome.success }).progress) ∧
    (([JobOp.update_progress 50 "halfway", JobOp.exec_start,
        JobOp.exec_finish].foldl applyJobOp
      { job_id := "job-1", session_id := "sess-1", job_type := "generate",
        status := JobStatus.pending, progress := 0, message := "Job queued",
        error := none, task_outcome := TaskOutcome.success }).progress) ≤ 100 := by
  exact C6_progress_invariant { jobs := [], queue := [] } "job-1" "sess-1" "generate"
    TaskOutcome.success
    [JobOp.update_progress 50 "halfway", JobOp.exec_start, JobOp.exec_finish]
    { job_id := "job-1", session_id := "sess-1", job_type := "generate",
      status := JobStatus.pending, progress := 0, message := "Job queued",
      error := none, task_outcome := TaskOutcome.success }
    (by simp) (by rfl)
    (by
      intro p msg hm
      simp at hm
      obtain ⟨hp, _⟩ := hm
      subst hp
      exact ⟨by decide, by decide⟩)

end NekoAI
